import Mathlib

/-!
Verification of the booking lifecycle and notification core of the
Air_Ambulance_MovieCloud backend (`routes/bookings.py`).

The Python controller is shallowly embedded: the document store is a
`List BookingDoc` passed explicitly, datetimes are natural numbers,
MongoDB `ObjectId`s are natural numbers, and the one randomized value
(`random.randint(30, 180)` in `calculate_flight_duration`) is threaded
through as an explicit parameter constrained by hypotheses.
-/

/-- User roles, as enumerated by `models.user.UserRole` and used throughout
`routes/bookings.py`. -/
inductive Role where
  | superadmin
  | dispatcher
  | hospital_staff
  | doctor
  | paramedic
  | airline_coordinator
deriving DecidableEq, Repr

/-- The slice of the `User` model that the booking controller consults:
identity, role and the active flag. -/
structure User where
  id : Nat
  role : Role
  is_active : Bool
deriving DecidableEq, Repr

/-- A stored booking document, mirroring the dict assembled by
`create_booking` and persisted in the `bookings` collection. -/
structure BookingDoc where
  id : Nat
  patient_id : Option Nat
  pickup_location : String
  destination : String
  urgency : String
  required_equipment : List String
  status : String
  assigned_crew_ids : List Nat
  assigned_aircraft_id : Option Nat
  estimated_cost : ℚ
  actual_cost : Option ℚ
  flight_duration : Option Nat
  created_by : Nat
  created_at : Nat
  updated_at : Nat
deriving DecidableEq, Repr

/-- The request body of `POST /api/bookings` (`BookingCreate`). -/
structure BookingCreate where
  patient_id : Option Nat
  pickup_location : String
  destination : String
  urgency : String
  required_equipment : List String
deriving DecidableEq, Repr

/-- The request body of `PUT /api/bookings/{id}` (`BookingUpdate`). Every
field is optional; `update_booking` drops fields that are unset or null
(`exclude_unset` followed by the `v is not None` filter), which `Option`
models directly: `none` is a field that will not be applied. -/
structure BookingUpdate where
  patient_id : Option Nat := none
  pickup_location : Option String := none
  destination : Option String := none
  urgency : Option String := none
  status : Option String := none
  assigned_crew_ids : Option (List Nat) := none
  assigned_aircraft_id : Option Nat := none
  actual_cost : Option ℚ := none
  flight_duration : Option Nat := none
deriving DecidableEq, Repr

/-- The HTTP error outcomes raised by the controller (`HTTPException`),
identified by status code: 403, 400, 404, 500. -/
inductive ApiError where
  | forbidden
  | badRequest
  | notFound
  | internalError
deriving DecidableEq, Repr

/-- Decidable equality of request outcomes, used to evaluate the
controller on concrete inputs. -/
instance exceptDecEq {e a : Type} [DecidableEq e] [DecidableEq a] :
    DecidableEq (Except e a) := fun x y =>
  match x, y with
  | Except.ok v, Except.ok w =>
      if h : v = w then isTrue (congrArg Except.ok h)
      else isFalse (fun hc => h (Except.ok.inj hc))
  | Except.error v, Except.error w =>
      if h : v = w then isTrue (congrArg Except.error h)
      else isFalse (fun hc => h (Except.error.inj hc))
  | Except.ok _, Except.error _ => isFalse (fun hc => Except.noConfusion hc)
  | Except.error _, Except.ok _ => isFalse (fun hc => Except.noConfusion hc)

/-- The urgency multiplier table shared by `calculate_estimated_cost` and
`calculate_actual_cost` (the Python dict `urgency_multiplier`). -/
def urgencyMultiplierTable : List (String × ℚ) :=
  [("critical", (3 : ℚ) / 2), ("urgent", (6 : ℚ) / 5), ("stable", 1)]

/-- Dictionary lookup with default, as in
`urgency_multiplier.get(urgency, 1.0)`: an unrecognized urgency falls back
to the multiplier 1.0. -/
def urgencyMultiplier (u : String) : ℚ :=
  ((urgencyMultiplierTable.find? (fun p => p.1 == u)).map Prod.snd).getD 1

/-- `calculate_estimated_cost`: base cost 5000 scaled by the urgency
multiplier, plus 500 per required-equipment item. -/
def calculate_estimated_cost (urgency : String) (equipCount : Nat) : ℚ :=
  5000 * urgencyMultiplier urgency + equipCount * 500

/-- `calculate_actual_cost`: base rate 100 per flight-duration unit scaled
by the urgency multiplier, plus 500 per required-equipment item. -/
def calculate_actual_cost (urgency : String) (equipCount : Nat)
    (flight_duration : Nat) : ℚ :=
  100 * flight_duration * urgencyMultiplier urgency + equipCount * 500

/-- C2: for every urgency string (recognized or not) and every equipment
count and duration, the cost functions compute
`5000 × mult + 500·n` and `100·d × mult + 500·n`, where the multiplier is
1.5 for critical, 1.2 for urgent, and 1.0 otherwise; both functions are
total, so no urgency value makes them fault. -/
theorem cost_estimator_closed_form (u : String) (n d : Nat) :
    calculate_estimated_cost u n =
      5000 * (if u = "critical" then (3 : ℚ) / 2
              else if u = "urgent" then (6 : ℚ) / 5 else 1) + 500 * n ∧
    calculate_actual_cost u n d =
      100 * d * (if u = "critical" then (3 : ℚ) / 2
                 else if u = "urgent" then (6 : ℚ) / 5 else 1) + 500 * n := by
  have hmul : urgencyMultiplier u =
      (if u = "critical" then (3 : ℚ) / 2
       else if u = "urgent" then (6 : ℚ) / 5 else 1) := by
    by_cases hc : u = "critical"
    · simp [urgencyMultiplier, urgencyMultiplierTable, List.find?, hc]
    · by_cases hu : u = "urgent"
      · simp [urgencyMultiplier, urgencyMultiplierTable, List.find?, hu, hc]
      · by_cases hs : u = "stable"
        · simp [urgencyMultiplier, urgencyMultiplierTable, List.find?, hs, hc, hu]
        · have h1 : ("critical" == u) = false := beq_eq_false_iff_ne.mpr (Ne.symm hc)
          have h2 : ("urgent" == u) = false := beq_eq_false_iff_ne.mpr (Ne.symm hu)
          have h3 : ("stable" == u) = false := beq_eq_false_iff_ne.mpr (Ne.symm hs)
          simp [urgencyMultiplier, urgencyMultiplierTable, List.find?, h1, h2, h3, hc, hu]
  refine ⟨?_, ?_⟩
  · simp [calculate_estimated_cost, hmul, mul_comm]
  · simp [calculate_actual_cost, hmul, mul_comm]

/-- `create_booking` (`POST /api/bookings`): rejects actors outside
{superadmin, dispatcher, hospital_staff} with 403, otherwise assembles and
persists the new booking document. The fresh document id and the current
time are explicit parameters (`insert_one`'s generated id and
`datetime.utcnow()`). -/
def create_booking (input : BookingCreate) (actor : User) (newId now : Nat) :
    Except ApiError BookingDoc :=
  if actor.role ∈ [Role.superadmin, Role.dispatcher, Role.hospital_staff] then
    Except.ok
      { id := newId
        patient_id := input.patient_id
        pickup_location := input.pickup_location
        destination := input.destination
        urgency := input.urgency
        required_equipment := input.required_equipment
        status := "pending"
        assigned_crew_ids := []
        assigned_aircraft_id := none
        estimated_cost :=
          calculate_estimated_cost input.urgency input.required_equipment.length
        actual_cost := none
        flight_duration := none
        created_by := actor.id
        created_at := now
        updated_at := now }
  else Except.error ApiError.forbidden

/-- C1: Create fails with Forbidden for any role outside
{superadmin, dispatcher, hospital_staff} (in particular for doctors), and
succeeds for the allowed roles with status `pending`, empty crew list, no
aircraft, null actual cost and flight duration, and estimated cost computed
by the Cost Estimator from the input's urgency and equipment count. -/
theorem create_booking_gate_and_initial_state
    (input : BookingCreate) (actor : User) (newId now : Nat) :
    (actor.role ∉ [Role.superadmin, Role.dispatcher, Role.hospital_staff] →
      create_booking input actor newId now = Except.error ApiError.forbidden) ∧
    (actor.role ∈ [Role.superadmin, Role.dispatcher, Role.hospital_staff] →
      ∃ b, create_booking input actor newId now = Except.ok b ∧
        b.status = "pending" ∧
        b.assigned_crew_ids = [] ∧
        b.assigned_aircraft_id = none ∧
        b.actual_cost = none ∧
        b.flight_duration = none ∧
        b.estimated_cost =
          calculate_estimated_cost input.urgency input.required_equipment.length) := by
  refine ⟨fun h => ?_, fun h => ?_⟩
  · simp [create_booking, h]
  · simp only [create_booking, if_pos h]
    exact ⟨_, rfl, rfl, rfl, rfl, rfl, rfl, rfl⟩

/-- Sample booking input used to instantiate the theorems. -/
def sampleInput : BookingCreate :=
  { patient_id := some 7
    pickup_location := "City Hospital"
    destination := "Trauma Center"
    urgency := "urgent"
    required_equipment := ["ventilator", "defibrillator"] }

/-- A doctor actor (not allowed to create bookings). -/
def doctorUser : User := ⟨21, Role.doctor, true⟩

/-- A dispatcher actor (allowed to create and update bookings). -/
def dispatcherUser : User := ⟨22, Role.dispatcher, true⟩

/-- A superadmin actor. -/
def adminUser : User := ⟨23, Role.superadmin, true⟩

theorem create_booking_gate_and_initial_state_witness :
    create_booking sampleInput doctorUser 1 0 = Except.error ApiError.forbidden ∧
    ∃ b, create_booking sampleInput dispatcherUser 2 0 = Except.ok b ∧
      b.status = "pending" ∧
      b.assigned_crew_ids = [] ∧
      b.assigned_aircraft_id = none ∧
      b.actual_cost = none ∧
      b.flight_duration = none ∧
      b.estimated_cost =
        calculate_estimated_cost sampleInput.urgency
          sampleInput.required_equipment.length :=
  ⟨(create_booking_gate_and_initial_state sampleInput doctorUser 1 0).1 (by decide),
   (create_booking_gate_and_initial_state sampleInput dispatcherUser 2 0).2 (by decide)⟩

/-- The deduplication loop at the end of `get_notification_recipients`:
keep the first occurrence of each user id, tracking ids already seen. -/
def dedupByIdAux : List User → List Nat → List User
  | [], _ => []
  | u :: rest, seen =>
    if u.id ∈ seen then dedupByIdAux rest seen
    else u :: dedupByIdAux rest (u.id :: seen)

/-- `get_notification_recipients`: always starts from the acting user; for
actions `created`, `updated`, `emergency` adds all active dispatchers,
superadmins and airline coordinators; for action `emergency` or a
`critical`-urgency booking adds all active doctors and paramedics; then
deduplicates by user id preserving first-seen order. The whole body runs
under a `try`: `lookupOk = false` models the user-collection lookup
raising, in which case the function returns `[current_user]`. -/
def getNotificationRecipients (booking : BookingDoc) (current_user : User)
    (action : String) (users : List User) (lookupOk : Bool) : List User :=
  if lookupOk then
    let r1 : List User := [current_user]
    let r2 : List User :=
      if action ∈ (["created", "updated", "emergency"] : List String) then
        r1 ++ users.filter (fun u =>
          decide (u.role ∈ [Role.dispatcher, Role.superadmin, Role.airline_coordinator])
            && u.is_active)
      else r1
    let r3 : List User :=
      if action = "emergency" ∨ booking.urgency = "critical" then
        r2 ++ users.filter (fun u =>
          decide (u.role ∈ [Role.doctor, Role.paramedic]) && u.is_active)
      else r2
    dedupByIdAux r3 []
  else [current_user]

lemma dedupByIdAux_sublist (l : List User) :
    ∀ seen, List.Sublist (dedupByIdAux l seen) l := by
  induction l with
  | nil => intro seen; simp [dedupByIdAux]
  | cons u rest ih =>
      intro seen
      by_cases h : u.id ∈ seen
      · simp only [dedupByIdAux, if_pos h]
        exact (ih seen).trans (List.sublist_cons_self u rest)
      · simp only [dedupByIdAux, if_neg h]
        exact (ih (u.id :: seen)).cons₂ u

lemma dedupByIdAux_nodup_disjoint (l : List User) :
    ∀ seen, ((dedupByIdAux l seen).map User.id).Nodup ∧
      ∀ x ∈ (dedupByIdAux l seen).map User.id, x ∉ seen := by
  induction l with
  | nil => intro seen; simp [dedupByIdAux]
  | cons u rest ih =>
      intro seen
      by_cases h : u.id ∈ seen
      · simpa only [dedupByIdAux, if_pos h] using ih seen
      · have ih' := ih (u.id :: seen)
        simp only [dedupByIdAux, if_neg h, List.map_cons, List.nodup_cons]
        refine ⟨⟨fun hx => absurd (List.mem_cons_self u.id seen) (ih'.2 u.id hx), ih'.1⟩, ?_⟩
        intro x hx
        rcases List.mem_cons.mp hx with hx | hx
        · exact hx ▸ h
        · exact fun hs => (ih'.2 x hx) (List.mem_cons_of_mem _ hs)

/-- A notification dispatched through `NotificationService` during an
update: the event action, the computed recipients and the severity
(`notification_type`). -/
structure Notification where
  action : String
  recipients : List User
  severity : String
deriving DecidableEq, Repr

/-- The observable outcome of a successful `update_booking`: the re-fetched
booking document, the updated store, and the notifications emitted. -/
structure UpdateResult where
  booking : BookingDoc
  db : List BookingDoc
  notifications : List Notification
deriving DecidableEq, Repr

/-- Application of the filtered `update_data` dict via `$set`, together
with the unconditional `updated_at = datetime.utcnow()`: a `some` field of
the patch overwrites the stored value, a `none` field leaves it as is. -/
def applyPatch (b : BookingDoc) (p : BookingUpdate) (now : Nat) : BookingDoc :=
  { b with
    patient_id := match p.patient_id with
      | some v => some v
      | none => b.patient_id
    pickup_location := p.pickup_location.getD b.pickup_location
    destination := p.destination.getD b.destination
    urgency := p.urgency.getD b.urgency
    status := p.status.getD b.status
    assigned_crew_ids := p.assigned_crew_ids.getD b.assigned_crew_ids
    assigned_aircraft_id := match p.assigned_aircraft_id with
      | some v => some v
      | none => b.assigned_aircraft_id
    actual_cost := match p.actual_cost with
      | some v => some v
      | none => b.actual_cost
    flight_duration := match p.flight_duration with
      | some v => some v
      | none => b.flight_duration
    updated_at := now }

/-- The completed-status synthesis block of `update_booking`: when the
patch sets status `completed`, a missing `flight_duration` is filled with
`calculate_flight_duration()` (the explicit `rand` parameter, drawn from
[30,180]) and a missing `actual_cost` is filled with
`calculate_actual_cost(current_booking, flight_duration)` — computed from
the previously stored document, not from the patch. -/
def completionPatch (current : BookingDoc) (p : BookingUpdate) (rand : Nat) :
    BookingUpdate :=
  if p.status = some "completed" then
    let fd := p.flight_duration.getD rand
    { p with
      flight_duration := some fd
      actual_cost := some (p.actual_cost.getD
        (calculate_actual_cost current.urgency current.required_equipment.length fd)) }
  else p

/-- `status_changed = new_status and new_status != old_status`: true when
the patch carries a status differing from the stored one. -/
def statusChangedFlag (patch : BookingUpdate) (current : BookingDoc) : Bool :=
  match patch.status with
  | some s => decide (s ≠ current.status)
  | none => false

/-- The notifications emitted by `update_booking` after a successful
`$set`: when the status changed, a `status_change` notification (severity
`warning` for `cancelled`, else `info`) and, for a `completed` status, an
additional `success` completion notification to the same recipients. -/
def updateNotifications (patch : BookingUpdate) (newDoc : BookingDoc)
    (actor : User) (users : List User) (lookupOk : Bool)
    (statusChanged : Bool) : List Notification :=
  if statusChanged then
    let recips := getNotificationRecipients newDoc actor "status_change" users lookupOk
    let sev := if patch.status = some "cancelled" then "warning" else "info"
    if patch.status = some "completed" then
      [⟨"status_change", recips, sev⟩, ⟨"completion", recips, "success"⟩]
    else [⟨"status_change", recips, sev⟩]
  else []

/-- `update_booking` (`PUT /api/bookings/{id}`): role gate of superadmin
and dispatcher; 404 when the id has no document; completed-status
synthesis; `$set` of the effective patch with a fresh `updated_at`; 404
when the resulting document equals the stored one (`modified_count == 0`,
"no changes made"); status-change and completion notifications when the
patch's status differs from the stored one. -/
def update_booking (bookingId : Nat) (patch : BookingUpdate) (actor : User)
    (rand now : Nat) (users : List User) (lookupOk : Bool)
    (db : List BookingDoc) : Except ApiError UpdateResult :=
  if actor.role ∈ [Role.superadmin, Role.dispatcher] then
    match db.find? (fun b => b.id == bookingId) with
    | none => Except.error ApiError.notFound
    | some current =>
      let newDoc := applyPatch current (completionPatch current patch rand) now
      if newDoc = current then Except.error ApiError.notFound
      else
        Except.ok ⟨newDoc,
          db.map (fun b => if b.id == bookingId then newDoc else b),
          updateNotifications patch newDoc actor users lookupOk
            (statusChangedFlag patch current)⟩
  else Except.error ApiError.forbidden

/-- `mark_booking_emergency` (`PUT /api/bookings/{id}/emergency`): role
gate {superadmin, dispatcher, doctor}; 404 when absent; `$set` of
`urgency="critical"` and a fresh `updated_at`, with 404 when nothing was
modified (`modified_count == 0`). -/
def mark_booking_emergency (bookingId : Nat) (actor : User) (now : Nat)
    (db : List BookingDoc) : Except ApiError (BookingDoc × List BookingDoc) :=
  if actor.role ∈ [Role.superadmin, Role.dispatcher, Role.doctor] then
    match db.find? (fun b => b.id == bookingId) with
    | none => Except.error ApiError.notFound
    | some current =>
      let newDoc := { current with urgency := "critical", updated_at := now }
      if newDoc = current then Except.error ApiError.notFound
      else
        Except.ok (newDoc, db.map (fun b => if b.id == bookingId then newDoc else b))
  else Except.error ApiError.forbidden

/-- Descending insertion by key, modelling the document store's
`sort("created_at", -1)`. -/
def insertByKeyDesc {α : Type} (key : α → Nat) (a : α) : List α → List α
  | [] => [a]
  | x :: xs => if key x ≤ key a then a :: x :: xs else x :: insertByKeyDesc key a xs

/-- Descending insertion sort by key. -/
def sortByKeyDesc {α : Type} (key : α → Nat) : List α → List α
  | [] => []
  | x :: xs => insertByKeyDesc key x (sortByKeyDesc key xs)

/-- The optional status filter of `GET /api/bookings`: absent means match
everything. -/
def optStatusMatches (f : Option String) (s : String) : Bool :=
  match f with
  | none => true
  | some v => v == s

/-- The Mongo query built by `get_bookings`: the optional status equality,
plus `created_by == current_user.id` exactly when the actor is
hospital staff. -/
def bookingQueryFilter (actor : User) (sf : Option String) (b : BookingDoc) : Bool :=
  optStatusMatches sf b.status &&
    (if actor.role = Role.hospital_staff then b.created_by == actor.id else true)

/-- `get_bookings` (`GET /api/bookings`) on a store whose records all parse
into the `Booking` model: filter by the query, sort by `created_at`
descending, then apply `skip` and `limit`. -/
def get_bookings (actor : User) (sf : Option String) (skip limit : Nat)
    (db : List BookingDoc) : List BookingDoc :=
  ((sortByKeyDesc BookingDoc.created_at
      (db.filter (bookingQueryFilter actor sf))).drop skip).take limit

/-- A raw stored record: its queryable fields together with whether
`Booking(**booking_data)` validates it (`wellFormed = false` models a
stored document that raises on model construction). -/
structure RawRecord where
  fields : BookingDoc
  wellFormed : Bool
deriving DecidableEq, Repr

/-- `Booking(**booking_data)` as a fallible parse. -/
def parseRecord (r : RawRecord) : Option BookingDoc :=
  if r.wellFormed then some r.fields else none

/-- The page of raw records the cursor yields: query filter, descending
sort on `created_at`, then `skip` and `limit`. -/
def selectedPage (actor : User) (sf : Option String) (skip limit : Nat)
    (raw : List RawRecord) : List RawRecord :=
  ((sortByKeyDesc (fun r => r.fields.created_at)
      (raw.filter (fun r => bookingQueryFilter actor sf r.fields))).drop skip).take limit

/-- The accumulation loop of `get_bookings`: each record is parsed with
`Booking(**booking_data)` inside the endpoint's single `try` block, so the
first record that fails to parse aborts the whole listing with the 500
`"Error retrieving bookings"` response. -/
def buildBookingList : List RawRecord → Except ApiError (List BookingDoc)
  | [] => Except.ok []
  | r :: rest =>
    match parseRecord r with
    | some b => (buildBookingList rest).map (fun l => b :: l)
    | none => Except.error ApiError.internalError

/-- `get_bookings` including the per-record model validation. -/
def get_bookings_checked (actor : User) (sf : Option String) (skip limit : Nat)
    (raw : List RawRecord) : Except ApiError (List BookingDoc) :=
  buildBookingList (selectedPage actor sf skip limit raw)

/-- A live push channel of the `ConnectionManager`: its identity and
whether `send_text` on it succeeds (`ok = false` models a closed channel
whose send raises). -/
structure Channel where
  id : Nat
  ok : Bool
deriving DecidableEq, Repr

/-- `ConnectionManager.disconnect`: remove the channel if registered,
no-op otherwise. -/
def disconnect (conns : List Channel) (c : Channel) : List Channel :=
  if c ∈ conns then conns.erase c else conns

/-- The send loop of `ConnectionManager.broadcast`: first component is the
channels whose send succeeded (in registration order), second the
channels whose send raised (collected in `disconnected_connections`). -/
def broadcastLoop : List Channel → List Channel × List Channel
  | [] => ([], [])
  | c :: rest =>
    let p := broadcastLoop rest
    if c.ok then (c :: p.1, p.2) else (p.1, c :: p.2)

/-- `ConnectionManager.broadcast`: deliver to every registered channel,
treating a raising send as a dead channel; afterwards disconnect each dead
channel. Returns the delivered-to channels and the new registry. -/
def broadcast (conns : List Channel) : List Channel × List Channel :=
  let p := broadcastLoop conns
  (p.1, p.2.foldl disconnect conns)

lemma broadcastLoop_eq (l : List Channel) :
    broadcastLoop l = (l.filter (fun c => c.ok), l.filter (fun c => !c.ok)) := by
  induction l with
  | nil => simp [broadcastLoop]
  | cons c rest ih =>
      by_cases h : c.ok <;> simp [broadcastLoop, ih, List.filter_cons, h]

lemma foldl_disconnect_removes (xs : List Channel) :
    ∀ l : List Channel, l.Nodup → xs.Nodup → (∀ x ∈ xs, x ∈ l) →
      List.foldl disconnect l xs = l.filter (fun c => !(xs.contains c)) := by
  induction xs with
  | nil => intro l _ _ _; simp
  | cons a t ih =>
      intro l hl hxs hsub
      have ha : a ∈ l := hsub a (List.mem_cons_self a t)
      have hat : a ∉ t := (List.nodup_cons.mp hxs).1
      have ht : t.Nodup := (List.nodup_cons.mp hxs).2
      have step : disconnect l a = l.erase a := by simp [disconnect, ha]
      have hsub' : ∀ x ∈ t, x ∈ l.erase a := by
        intro x hx
        have hxa : x ≠ a := fun h => hat (h ▸ hx)
        exact (List.mem_erase_of_ne hxa).mpr (hsub x (List.mem_cons_of_mem a hx))
      calc List.foldl disconnect l (a :: t)
          = List.foldl disconnect (l.erase a) t := by
            rw [List.foldl_cons, step]
        _ = (l.erase a).filter (fun c => !(t.contains c)) :=
            ih (l.erase a) (hl.erase a) ht hsub'
        _ = l.filter (fun c => !((a :: t).contains c)) := by
            rw [hl.erase_eq_filter a, List.filter_filter]
            apply List.filter_congr
            intro x hx
            by_cases hxa : x = a
            · subst hxa; simp [List.contains_cons]
            · simp [List.contains_cons, hxa]

/-- C9: on a registry of distinct channels, `broadcast` delivers the
message exactly to the channels whose send succeeds (in registration
order); every channel whose send raises is removed from the registry, and
those failures abort neither the remaining deliveries nor the call itself
(`broadcast` is a total function). -/
theorem broadcast_delivers_and_prunes_dead_channels
    (conns : List Channel) (h : conns.Nodup) :
    (broadcast conns).1 = conns.filter (fun c => c.ok) ∧
    (broadcast conns).2 = conns.filter (fun c => c.ok) := by
  have hb := broadcastLoop_eq conns
  constructor
  · simp [broadcast, hb]
  · have hsubs : ∀ x ∈ conns.filter (fun c => !c.ok), x ∈ conns :=
      fun x hx => (List.mem_filter.mp hx).1
    have hnd : (conns.filter (fun c => !c.ok)).Nodup := h.filter _
    have hrm := foldl_disconnect_removes (conns.filter (fun c => !c.ok)) conns h hnd hsubs
    simp only [broadcast, hb]
    rw [hrm]
    apply List.filter_congr
    intro x hx
    by_cases hxo : x.ok
    · have hnm : x ∉ conns.filter (fun c => !c.ok) := by
        simp [List.mem_filter, hxo]
      simp [hnm, hxo]
    · have hm : x ∈ conns.filter (fun c => !c.ok) := by
        simp [List.mem_filter, hxo, hx]
      simp [hm, hxo]

/-- Sample channel registry: channels 1 and 3 are open, channel 2 is
closed (its send raises). -/
def sampleChannels : List Channel := [⟨1, true⟩, ⟨2, false⟩, ⟨3, true⟩]

theorem broadcast_delivers_and_prunes_dead_channels_witness :
    (broadcast sampleChannels).1 = [⟨1, true⟩, ⟨3, true⟩] ∧
    (broadcast sampleChannels).2 = [⟨1, true⟩, ⟨3, true⟩] :=
  ⟨((broadcast_delivers_and_prunes_dead_channels sampleChannels (by decide)).1).trans
      (by decide),
   ((broadcast_delivers_and_prunes_dead_channels sampleChannels (by decide)).2).trans
      (by decide)⟩

lemma update_booking_ok_eq
    (idv : Nat) (patch : BookingUpdate) (actor : User) (rand now : Nat)
    (users : List User) (lookupOk : Bool) (db : List BookingDoc) (b : BookingDoc)
    (hrole : actor.role ∈ [Role.superadmin, Role.dispatcher])
    (hfind : db.find? (fun x => x.id == idv) = some b)
    (hne : applyPatch b (completionPatch b patch rand) now ≠ b) :
    update_booking idv patch actor rand now users lookupOk db =
      Except.ok ⟨applyPatch b (completionPatch b patch rand) now,
        db.map (fun x => if x.id == idv then
          applyPatch b (completionPatch b patch rand) now else x),
        updateNotifications patch (applyPatch b (completionPatch b patch rand) now)
          actor users lookupOk (statusChangedFlag patch b)⟩ := by
  simp only [update_booking, if_pos hrole, hfind]
  rw [if_neg hne]

lemma update_booking_ok_inv
    (idv : Nat) (patch : BookingUpdate) (actor : User) (rand now : Nat)
    (users : List User) (lookupOk : Bool) (db : List BookingDoc) (b : BookingDoc)
    (res : UpdateResult)
    (hfind : db.find? (fun x => x.id == idv) = some b)
    (hok : update_booking idv patch actor rand now users lookupOk db = Except.ok res) :
    res = ⟨applyPatch b (completionPatch b patch rand) now,
      db.map (fun x => if x.id == idv then
        applyPatch b (completionPatch b patch rand) now else x),
      updateNotifications patch (applyPatch b (completionPatch b patch rand) now)
        actor users lookupOk (statusChangedFlag patch b)⟩ := by
  by_cases hrole : actor.role ∈ [Role.superadmin, Role.dispatcher]
  · simp only [update_booking, if_pos hrole, hfind] at hok
    by_cases hne : applyPatch b (completionPatch b patch rand) now = b
    · rw [if_pos hne] at hok
      simp at hok
    · rw [if_neg hne] at hok
      exact (Except.ok.inj hok).symm
  · simp only [update_booking, if_neg hrole] at hok
    simp at hok

/-- C3: an update whose patch sets status `completed` but supplies neither
`flight_duration` nor `actual_cost` stores the synthesized flight duration
(the `calculate_flight_duration()` draw, which lies in [30,180]) and an
actual cost computed by `calculate_actual_cost` from that same duration —
the two synthesized fields are mutually consistent. -/
theorem update_to_completed_synthesizes_consistent_cost
    (idv : Nat) (patch : BookingUpdate) (actor : User) (rand now : Nat)
    (users : List User) (lookupOk : Bool) (db : List BookingDoc)
    (b : BookingDoc) (res : UpdateResult)
    (hfind : db.find? (fun x => x.id == idv) = some b)
    (hst : patch.status = some "completed")
    (hfd : patch.flight_duration = none)
    (hac : patch.actual_cost = none)
    (h30 : 30 ≤ rand) (h180 : rand ≤ 180)
    (hok : update_booking idv patch actor rand now users lookupOk db =
      Except.ok res) :
    res.booking.flight_duration = some rand ∧
    30 ≤ rand ∧ rand ≤ 180 ∧
    res.booking.actual_cost =
      some (calculate_actual_cost b.urgency b.required_equipment.length rand) := by
  have hres := update_booking_ok_inv idv patch actor rand now users lookupOk db b
    res hfind hok
  subst hres
  refine ⟨?_, h30, h180, ?_⟩ <;>
    simp [applyPatch, completionPatch, hst, hfd, hac]

/-- A stored booking used to instantiate the update theorems: stable
urgency, one equipment item, status `approved`, last updated at time 3. -/
def bStable : BookingDoc :=
  { id := 1
    patient_id := some 7
    pickup_location := "City Hospital"
    destination := "Trauma Center"
    urgency := "stable"
    required_equipment := ["ventilator"]
    status := "approved"
    assigned_crew_ids := [5]
    assigned_aircraft_id := some 2
    estimated_cost := 5500
    actual_cost := none
    flight_duration := none
    created_by := 30
    created_at := 3
    updated_at := 3 }

theorem update_to_completed_synthesizes_consistent_cost_witness :
    (update_booking 1 { status := some "completed" } dispatcherUser 60 9 [] true
        [bStable]).toOption.map
      (fun r => (r.booking.flight_duration, r.booking.actual_cost)) =
    some (some 60,
      some (calculate_actual_cost bStable.urgency
        bStable.required_equipment.length 60)) := by
  cases heq : update_booking 1 { status := some "completed" } dispatcherUser 60 9
      [] true [bStable] with
  | error e =>
      have hok : (update_booking 1 { status := some "completed" } dispatcherUser
          60 9 [] true [bStable]).isOk = true := by decide
      rw [heq] at hok
      simp [Except.isOk, Except.toBool] at hok
  | ok res =>
      have h := update_to_completed_synthesizes_consistent_cost 1
        { status := some "completed" } dispatcherUser 60 9 [] true [bStable]
        bStable res (by decide) rfl rfl rfl (by decide) (by decide) heq
      simp [Except.toOption, h.1, h.2.2.2]

/-- C10: when the completion synthesis fires, the synthesized actual cost
is priced from the previously stored booking's urgency and equipment list,
not from values supplied in the same patch: a patch that simultaneously
changes urgency and completes the booking stores the new urgency but an
actual cost computed at the old urgency's multiplier. -/
theorem completed_cost_uses_prior_stored_urgency
    (idv : Nat) (patch : BookingUpdate) (actor : User) (rand now : Nat)
    (users : List User) (lookupOk : Bool) (db : List BookingDoc)
    (b : BookingDoc) (res : UpdateResult) (newU : String)
    (hfind : db.find? (fun x => x.id == idv) = some b)
    (hst : patch.status = some "completed")
    (hfd : patch.flight_duration = none)
    (hac : patch.actual_cost = none)
    (hu : patch.urgency = some newU)
    (_hchange : newU ≠ b.urgency)
    (hok : update_booking idv patch actor rand now users lookupOk db =
      Except.ok res) :
    res.booking.urgency = newU ∧
    res.booking.actual_cost =
      some (calculate_actual_cost b.urgency b.required_equipment.length rand) := by
  have hres := update_booking_ok_inv idv patch actor rand now users lookupOk db b
    res hfind hok
  subst hres
  constructor <;> simp [applyPatch, completionPatch, hst, hfd, hac, hu]

theorem completed_cost_uses_prior_stored_urgency_witness :
    (update_booking 1 { urgency := some "critical", status := some "completed" }
        dispatcherUser 60 9 [] true [bStable]).toOption.map
      (fun r => (r.booking.urgency, r.booking.actual_cost)) =
    some ("critical",
      some (calculate_actual_cost bStable.urgency
        bStable.required_equipment.length 60)) := by
  cases heq : update_booking 1
      { urgency := some "critical", status := some "completed" } dispatcherUser
      60 9 [] true [bStable] with
  | error e =>
      have hok : (update_booking 1
          { urgency := some "critical", status := some "completed" }
          dispatcherUser 60 9 [] true [bStable]).isOk = true := by decide
      rw [heq] at hok
      simp [Except.isOk, Except.toBool] at hok
  | ok res =>
      have h := completed_cost_uses_prior_stored_urgency 1
        { urgency := some "critical", status := some "completed" } dispatcherUser
        60 9 [] true [bStable] bStable res "critical" (by decide) rfl rfl rfl rfl
        (by decide) heq
      simp [Except.toOption, h.1, h.2]

/-- C4 (amended): updating a non-existent booking id fails with NotFound;
but an empty patch on an existing booking does not fail — because
`update_booking` always adds a fresh `updated_at` to `update_data`, the
`$set` modifies the document whenever the new timestamp differs from the
stored one, and the call succeeds changing only `updated_at`. The
"no changes made" NotFound occurs exactly when the patched document is
identical to the stored one (empty patch with an unchanged timestamp). -/
theorem update_not_found_and_empty_patch_behaviour
    (idv : Nat) (actor : User) (rand now : Nat) (users : List User)
    (lookupOk : Bool) (db : List BookingDoc) (b : BookingDoc)
    (hrole : actor.role ∈ [Role.superadmin, Role.dispatcher]) :
    (db.find? (fun x => x.id == idv) = none →
      ∀ patch, update_booking idv patch actor rand now users lookupOk db =
        Except.error ApiError.notFound) ∧
    (db.find? (fun x => x.id == idv) = some b → now ≠ b.updated_at →
      update_booking idv {} actor rand now users lookupOk db =
        Except.ok ⟨{ b with updated_at := now },
          db.map (fun x => if x.id == idv then { b with updated_at := now } else x),
          []⟩) ∧
    (db.find? (fun x => x.id == idv) = some b → now = b.updated_at →
      update_booking idv {} actor rand now users lookupOk db =
        Except.error ApiError.notFound) := by
  have hcp : completionPatch b ({} : BookingUpdate) rand = {} := by
    simp [completionPatch]
  have hap : applyPatch b ({} : BookingUpdate) now = { b with updated_at := now } := rfl
  refine ⟨?_, ?_, ?_⟩
  · intro hnone patch
    simp [update_booking, hrole, hnone]
  · intro hfind hne
    have hne' : applyPatch b (completionPatch b ({} : BookingUpdate) rand) now ≠ b := by
      rw [hcp, hap]
      intro h
      exact hne (congrArg BookingDoc.updated_at h)
    rw [update_booking_ok_eq idv {} actor rand now users lookupOk db b hrole hfind hne']
    rw [hcp, hap]
    simp [updateNotifications, statusChangedFlag]
  · intro hfind heq
    have heq' : applyPatch b (completionPatch b ({} : BookingUpdate) rand) now = b := by
      rw [hcp, hap, heq]
    simp only [update_booking, if_pos hrole, hfind]
    rw [if_pos heq']

theorem update_not_found_and_empty_patch_behaviour_witness :
    update_booking 2 {} adminUser 50 5 [] true [bStable] =
      Except.error ApiError.notFound ∧
    update_booking 1 {} adminUser 50 5 [] true [bStable] =
      Except.ok ⟨{ bStable with updated_at := 5 },
        [{ bStable with updated_at := 5 }], []⟩ ∧
    update_booking 1 {} adminUser 50 3 [] true [bStable] =
      Except.error ApiError.notFound := by
  refine ⟨?_, ?_, ?_⟩
  · exact (update_not_found_and_empty_patch_behaviour 2 adminUser 50 5 [] true
      [bStable] bStable (by decide)).1 (by decide) {}
  · exact ((update_not_found_and_empty_patch_behaviour 1 adminUser 50 5 [] true
      [bStable] bStable (by decide)).2.1 (by decide) (by decide)).trans (by decide)
  · exact (update_not_found_and_empty_patch_behaviour 1 adminUser 50 3 [] true
      [bStable] bStable (by decide)).2.2 (by decide) (by decide)

/-- C4 counterexample: an empty patch on an existing booking (id 1, stored
`updated_at` 3, request time 5) does not return NotFound as the claim
demands — the update succeeds, because `updated_at` is always rewritten. -/
theorem update_empty_patch_succeeds_counterexample :
    update_booking 1 {} adminUser 50 5 [] true [bStable] ≠
      Except.error ApiError.notFound ∧
    (update_booking 1 {} adminUser 50 5 [] true [bStable]).isOk = true := by
  decide

lemma find?_map_replace (db : List BookingDoc) (idv : Nat) (newDoc : BookingDoc)
    (hid : newDoc.id = idv) :
    (db.map (fun x => if x.id == idv then newDoc else x)).find?
        (fun x => x.id == idv) =
      (db.find? (fun x => x.id == idv)).map (fun _ => newDoc) := by
  induction db with
  | nil => simp
  | cons x rest ih =>
      by_cases h : x.id = idv
      · have hb : (x.id == idv) = true := beq_iff_eq.mpr h
        have hbn : (newDoc.id == idv) = true := beq_iff_eq.mpr hid
        rw [List.map_cons, if_pos hb,
          @List.find?_cons_of_pos BookingDoc (fun y => y.id == idv) newDoc _ hbn,
          @List.find?_cons_of_pos BookingDoc (fun y => y.id == idv) x rest hb]
        rfl
      · have hb : (x.id == idv) = false := beq_eq_false_iff_ne.mpr h
        rw [List.map_cons, if_neg (by simp [hb]),
          @List.find?_cons_of_neg BookingDoc (fun y => y.id == idv) x _ (by simp [hb]),
          @List.find?_cons_of_neg BookingDoc (fun y => y.id == idv) x rest (by simp [hb])]
        exact ih

lemma mark_booking_emergency_ok (idv : Nat) (actor : User) (now : Nat)
    (db : List BookingDoc) (b : BookingDoc)
    (hrole : actor.role ∈ [Role.superadmin, Role.dispatcher, Role.doctor])
    (hfind : db.find? (fun x => x.id == idv) = some b)
    (hch : now ≠ b.updated_at ∨ b.urgency ≠ "critical") :
    mark_booking_emergency idv actor now db =
      Except.ok ({ b with urgency := "critical", updated_at := now },
        db.map (fun x => if x.id == idv then
          { b with urgency := "critical", updated_at := now } else x)) := by
  have hne : ({ b with urgency := "critical", updated_at := now } : BookingDoc) ≠ b := by
    intro h
    rcases hch with hch | hch
    · exact hch (congrArg BookingDoc.updated_at h)
    · exact hch ((congrArg BookingDoc.urgency h).symm)
  simp only [mark_booking_emergency, if_pos hrole, hfind]
  rw [if_neg hne]

/-- C8: an actor whose role is superadmin, dispatcher or doctor can
escalate an existing booking of any urgency: the stored urgency becomes
`critical` unconditionally, and a second escalation (at a later clock
tick) succeeds again leaving urgency `critical` — idempotent on the
urgency field. Escalating an absent booking id fails with NotFound. -/
theorem mark_emergency_critical_and_idempotent
    (actor : User) (idv now1 now2 : Nat) (db : List BookingDoc) (b : BookingDoc)
    (hrole : actor.role ∈ [Role.superadmin, Role.dispatcher, Role.doctor])
    (hfind : db.find? (fun x => x.id == idv) = some b)
    (h1 : now1 ≠ b.updated_at) (h2 : now2 ≠ now1) :
    (∃ b1 db1, mark_booking_emergency idv actor now1 db = Except.ok (b1, db1) ∧
      b1.urgency = "critical" ∧
      ∃ b2 db2, mark_booking_emergency idv actor now2 db1 = Except.ok (b2, db2) ∧
        b2.urgency = "critical") ∧
    (∀ db' : List BookingDoc, db'.find? (fun x => x.id == idv) = none →
      mark_booking_emergency idv actor now1 db' = Except.error ApiError.notFound) := by
  constructor
  · have hbid : b.id = idv := by
      have := List.find?_some hfind
      exact beq_iff_eq.mp this
    refine ⟨{ b with urgency := "critical", updated_at := now1 }, _,
      mark_booking_emergency_ok idv actor now1 db b hrole hfind (Or.inl h1),
      rfl, ?_⟩
    have hfind2 : (db.map (fun x => if x.id == idv then
        { b with urgency := "critical", updated_at := now1 } else x)).find?
          (fun x => x.id == idv) =
        some { b with urgency := "critical", updated_at := now1 } := by
      rw [find?_map_replace db idv
        { b with urgency := "critical", updated_at := now1 } hbid, hfind]
      rfl
    have hstep2 := mark_booking_emergency_ok idv actor now2 _ _ hrole hfind2
      (Or.inl h2)
    exact ⟨_, _, hstep2, rfl⟩
  · intro db' hnone
    simp [mark_booking_emergency, hrole, hnone]

theorem mark_emergency_critical_and_idempotent_witness :
    (∃ b1 db1, mark_booking_emergency 1 doctorUser 5 [bStable] = Except.ok (b1, db1) ∧
      b1.urgency = "critical" ∧
      ∃ b2 db2, mark_booking_emergency 1 doctorUser 6 db1 = Except.ok (b2, db2) ∧
        b2.urgency = "critical") ∧
    mark_booking_emergency 1 doctorUser 5 [] = Except.error ApiError.notFound := by
  have H := mark_emergency_critical_and_idempotent doctorUser 1 5 6 [bStable]
    bStable (by decide) (by decide) (by decide) (by decide)
  exact ⟨H.1, H.2 [] rfl⟩

lemma getNotificationRecipients_head (booking : BookingDoc) (actor : User)
    (action : String) (users : List User) (lookupOk : Bool) :
    (getNotificationRecipients booking actor action users lookupOk).head? =
      some actor := by
  cases lookupOk with
  | false => rfl
  | true =>
      by_cases h2 : action ∈ (["created", "updated", "emergency"] : List String) <;>
        by_cases h3 : action = "emergency" ∨ booking.urgency = "critical" <;>
          simp [getNotificationRecipients, h2, h3, dedupByIdAux]

lemma getNotificationRecipients_ids_nodup (booking : BookingDoc) (actor : User)
    (action : String) (users : List User) (lookupOk : Bool) :
    ((getNotificationRecipients booking actor action users lookupOk).map
      User.id).Nodup := by
  cases lookupOk with
  | false => simp [getNotificationRecipients]
  | true =>
      simp only [getNotificationRecipients, if_pos rfl]
      exact (dedupByIdAux_nodup_disjoint _ _).1

lemma getNotificationRecipients_status_change_not_critical
    (booking : BookingDoc) (actor : User) (users : List User)
    (h : booking.urgency ≠ "critical") :
    getNotificationRecipients booking actor "status_change" users true =
      [actor] := by
  have h2 : "status_change" ∉ (["created", "updated", "emergency"] : List String) := by
    decide
  have h3 : ¬("status_change" = "emergency" ∨ booking.urgency = "critical") := by
    rintro (hc | hc)
    · exact absurd hc (by decide)
    · exact h hc
  simp [getNotificationRecipients, h2, h3, h, dedupByIdAux]

/-- C5 (amended): an update that changes the status emits a status-change
notification whose recipient list always starts with the acting user and
is deduplicated by user id; but because the event kind passed to the
recipient computation is `status_change` — which is not among `created`,
`updated`, `emergency` — active dispatchers, superadmins and airline
coordinators are NOT added: unless the booking's urgency is `critical`
(which adds medical staff), the recipients are exactly the actor. When the
recipient lookup fails, the list falls back to exactly the actor, and the
update has still succeeded. -/
theorem status_change_notification_recipients
    (idv : Nat) (patch : BookingUpdate) (actor : User) (rand now : Nat)
    (users : List User) (lookupOk : Bool) (db : List BookingDoc)
    (b : BookingDoc) (res : UpdateResult) (s : String)
    (hfind : db.find? (fun x => x.id == idv) = some b)
    (hst : patch.status = some s) (hchanged : s ≠ b.status)
    (hok : update_booking idv patch actor rand now users lookupOk db =
      Except.ok res) :
    ∃ n, n ∈ res.notifications ∧ n.action = "status_change" ∧
      n.recipients.head? = some actor ∧
      (n.recipients.map User.id).Nodup ∧
      (lookupOk = false → n.recipients = [actor]) ∧
      (lookupOk = true → res.booking.urgency ≠ "critical" →
        n.recipients = [actor]) := by
  have hres := update_booking_ok_inv idv patch actor rand now users lookupOk db b
    res hfind hok
  subst hres
  have hflag : statusChangedFlag patch b = true := by
    simp [statusChangedFlag, hst, hchanged]
  refine ⟨⟨"status_change",
    getNotificationRecipients (applyPatch b (completionPatch b patch rand) now)
      actor "status_change" users lookupOk,
    if patch.status = some "cancelled" then "warning" else "info"⟩,
    ?_, rfl, ?_, ?_, ?_, ?_⟩
  · show _ ∈ updateNotifications patch _ actor users lookupOk
      (statusChangedFlag patch b)
    rw [updateNotifications, if_pos hflag]
    by_cases hc : patch.status = some "completed" <;> simp [hc]
  · exact getNotificationRecipients_head _ _ _ _ _
  · exact getNotificationRecipients_ids_nodup _ _ _ _ _
  · intro hlk
    subst hlk
    rfl
  · intro hlk hcrit
    subst hlk
    exact getNotificationRecipients_status_change_not_critical _ _ _ hcrit

/-- An active dispatcher present in the user collection but (contrary to
the claim) not notified on a status change. -/
def dispatcherBystander : User := ⟨40, Role.dispatcher, true⟩

/-- C5 counterexample: a dispatcher-role superadmin-driven status change
(`approved` to `on_route`, stable urgency) notifies only the acting user:
the active dispatcher in the user collection is absent from every emitted
recipient list, contradicting the claim that every active dispatcher is
always included. -/
theorem status_change_recipients_counterexample :
    (update_booking 1 { status := some "on_route" } adminUser 50 5
        [dispatcherBystander] true [bStable]).toOption.map
      (fun r => r.notifications.map Notification.recipients) =
      some [[adminUser]] ∧
    dispatcherBystander.role = Role.dispatcher ∧
    dispatcherBystander.is_active = true ∧
    adminUser.id ≠ dispatcherBystander.id := by
  decide

lemma mem_insertByKeyDesc {α : Type} (key : α → Nat) (a x : α) (l : List α) :
    x ∈ insertByKeyDesc key a l ↔ x = a ∨ x ∈ l := by
  induction l with
  | nil => simp [insertByKeyDesc]
  | cons y ys ih =>
      by_cases h : key y ≤ key a
      · simp [insertByKeyDesc, h]
      · simp [insertByKeyDesc, h, ih]
        tauto

lemma mem_sortByKeyDesc {α : Type} (key : α → Nat) (x : α) (l : List α) :
    x ∈ sortByKeyDesc key l ↔ x ∈ l := by
  induction l with
  | nil => simp [sortByKeyDesc]
  | cons y ys ih => simp [sortByKeyDesc, mem_insertByKeyDesc, ih]

lemma pairwise_insertByKeyDesc {α : Type} (key : α → Nat) (a : α) (l : List α)
    (h : List.Pairwise (fun x y => key y ≤ key x) l) :
    List.Pairwise (fun x y => key y ≤ key x) (insertByKeyDesc key a l) := by
  induction l with
  | nil => simp [insertByKeyDesc]
  | cons y ys ih =>
      rcases List.pairwise_cons.mp h with ⟨hy, hys⟩
      by_cases hle : key y ≤ key a
      · simp only [insertByKeyDesc, if_pos hle]
        refine List.pairwise_cons.mpr ⟨?_, h⟩
        intro z hz
        rcases List.mem_cons.mp hz with rfl | hz
        · exact hle
        · exact (hy z hz).trans hle
      · simp only [insertByKeyDesc, if_neg hle]
        refine List.pairwise_cons.mpr ⟨?_, ih hys⟩
        intro z hz
        rcases (mem_insertByKeyDesc key a z ys).mp hz with rfl | hz
        · omega
        · exact hy z hz

lemma pairwise_sortByKeyDesc {α : Type} (key : α → Nat) (l : List α) :
    List.Pairwise (fun x y => key y ≤ key x) (sortByKeyDesc key l) := by
  induction l with
  | nil => simp [sortByKeyDesc]
  | cons y ys ih => exact pairwise_insertByKeyDesc key y _ ih

lemma length_insertByKeyDesc {α : Type} (key : α → Nat) (a : α) (l : List α) :
    (insertByKeyDesc key a l).length = l.length + 1 := by
  induction l with
  | nil => rfl
  | cons y ys ih => by_cases h : key y ≤ key a <;> simp [insertByKeyDesc, h, ih]

lemma length_sortByKeyDesc {α : Type} (key : α → Nat) (l : List α) :
    (sortByKeyDesc key l).length = l.length := by
  induction l with
  | nil => rfl
  | cons y ys ih => simp [sortByKeyDesc, length_insertByKeyDesc, ih]

/-- C6: listing scopes hospital staff to their own bookings — every
returned booking of a hospital_staff actor was created by that actor and
matches the optional status filter; every returned booking (any role)
comes from the store and matches the filter; with the default pagination
(skip 0 and a limit at least the store size) the returned bookings are
exactly those of the store matching the status filter and — when and only
when the actor is hospital staff — created by the actor, so a
hospital-staff actor receives exactly their own filter-matching bookings
and every other role receives exactly the filter-matching ones; and the
result is ordered by creation time, descending. -/
theorem get_bookings_scoping_filter_and_order
    (actor : User) (sf : Option String) (skip limit : Nat)
    (db : List BookingDoc) :
    (actor.role = Role.hospital_staff →
      ∀ b ∈ get_bookings actor sf skip limit db,
        b.created_by = actor.id ∧ optStatusMatches sf b.status = true) ∧
    (∀ b ∈ get_bookings actor sf skip limit db,
      b ∈ db ∧ optStatusMatches sf b.status = true) ∧
    (skip = 0 → db.length ≤ limit →
      ∀ b, b ∈ get_bookings actor sf skip limit db ↔
        b ∈ db ∧ optStatusMatches sf b.status = true ∧
          (actor.role = Role.hospital_staff → b.created_by = actor.id)) ∧
    List.Pairwise (fun x y => y.created_at ≤ x.created_at)
      (get_bookings actor sf skip limit db) := by
  have hsub : List.Sublist (get_bookings actor sf skip limit db)
      (sortByKeyDesc BookingDoc.created_at (db.filter (bookingQueryFilter actor sf))) :=
    (List.take_sublist _ _).trans (List.drop_sublist _ _)
  have hmem : ∀ b ∈ get_bookings actor sf skip limit db,
      b ∈ db ∧ bookingQueryFilter actor sf b = true := by
    intro b hb
    have hbs := hsub.mem hb
    have hbf := (mem_sortByKeyDesc _ _ _).mp hbs
    exact ⟨(List.mem_filter.mp hbf).1, (List.mem_filter.mp hbf).2⟩
  refine ⟨?_, ?_, ?_, ?_⟩
  · intro hrole b hb
    obtain ⟨hin, hq⟩ := hmem b hb
    rw [bookingQueryFilter, if_pos hrole, Bool.and_eq_true] at hq
    exact ⟨beq_iff_eq.mp hq.2, hq.1⟩
  · intro b hb
    obtain ⟨hin, hq⟩ := hmem b hb
    rw [bookingQueryFilter, Bool.and_eq_true] at hq
    exact ⟨hin, hq.1⟩
  · intro hskip hlimit b
    subst hskip
    have hq : bookingQueryFilter actor sf b = true ↔
        (optStatusMatches sf b.status = true ∧
          (actor.role = Role.hospital_staff → b.created_by = actor.id)) := by
      rw [bookingQueryFilter, Bool.and_eq_true]
      by_cases hr : actor.role = Role.hospital_staff
      · simp [hr, beq_iff_eq, and_comm]
      · simp [hr]
    have hlen : (sortByKeyDesc BookingDoc.created_at
        (db.filter (bookingQueryFilter actor sf))).length ≤ limit := by
      rw [length_sortByKeyDesc]
      exact (List.length_filter_le _ _).trans hlimit
    rw [get_bookings, List.drop_zero, List.take_of_length_le hlen,
      mem_sortByKeyDesc, List.mem_filter, hq]
  · exact List.Pairwise.sublist hsub (pairwise_sortByKeyDesc BookingDoc.created_at _)

theorem status_change_notification_recipients_witness :
    ∃ res n, update_booking 1 { status := some "on_route" } adminUser 50 5 []
        false [bStable] = Except.ok res ∧
      n ∈ res.notifications ∧ n.action = "status_change" ∧
      n.recipients = [adminUser] := by
  cases heq : update_booking 1 { status := some "on_route" } adminUser 50 5 []
      false [bStable] with
  | error e =>
      have hok : (update_booking 1 { status := some "on_route" } adminUser 50 5
          [] false [bStable]).isOk = true := by decide
      rw [heq] at hok
      simp [Except.isOk, Except.toBool] at hok
  | ok res =>
      obtain ⟨n, hmem, hact, _, _, hfb, _⟩ :=
        status_change_notification_recipients 1 { status := some "on_route" }
          adminUser 50 5 [] false [bStable] bStable res "on_route" (by decide)
          rfl (by decide) heq
      exact ⟨res, n, rfl, hmem, hact, hfb rfl⟩

/-- A hospital-staff actor who created `bStable` (`created_by = 30`). -/
def hsUser : User := ⟨30, Role.hospital_staff, true⟩

/-- A second stored booking created by a different user. -/
def bOther : BookingDoc :=
  { bStable with id := 2, created_by := 31, created_at := 7 }

theorem get_bookings_scoping_filter_and_order_witness :
    bStable.created_by = hsUser.id ∧
    optStatusMatches none bStable.status = true ∧
    (bStable ∈ get_bookings hsUser none 0 100 [bStable, bOther] ↔
      bStable ∈ [bStable, bOther] ∧ optStatusMatches none bStable.status = true ∧
        (hsUser.role = Role.hospital_staff → bStable.created_by = hsUser.id)) ∧
    (bOther ∈ get_bookings dispatcherUser none 0 100 [bStable, bOther] ↔
      bOther ∈ [bStable, bOther] ∧ optStatusMatches none bOther.status = true ∧
        (dispatcherUser.role = Role.hospital_staff →
          bOther.created_by = dispatcherUser.id)) := by
  have H := get_bookings_scoping_filter_and_order hsUser none 0 100
    [bStable, bOther]
  have h1 := H.1 rfl bStable (by decide)
  have H2 := get_bookings_scoping_filter_and_order dispatcherUser none 0 100
    [bStable, bOther]
  exact ⟨h1.1, h1.2, H.2.2.1 rfl (by decide) bStable,
    H2.2.2.1 rfl (by decide) bOther⟩

lemma buildBookingList_error (l : List RawRecord)
    (h : ∃ r ∈ l, r.wellFormed = false) :
    buildBookingList l = Except.error ApiError.internalError := by
  induction l with
  | nil => simp at h
  | cons r rest ih =>
      obtain ⟨x, hx, hxf⟩ := h
      rcases List.mem_cons.mp hx with rfl | hx
      · simp [buildBookingList, parseRecord, hxf]
      · by_cases hr : r.wellFormed
        · simp [buildBookingList, parseRecord, hr, ih ⟨x, hx, hxf⟩, Except.map]
        · simp [buildBookingList, parseRecord, hr]

lemma buildBookingList_ok (l : List RawRecord)
    (h : ∀ r ∈ l, r.wellFormed = true) :
    buildBookingList l = Except.ok (l.map RawRecord.fields) := by
  induction l with
  | nil => rfl
  | cons r rest ih =>
      have hr := h r (List.mem_cons_self r rest)
      have ih' := ih (fun x hx => h x (List.mem_cons_of_mem r hx))
      simp [buildBookingList, parseRecord, hr, ih', Except.map]

/-- C7 (amended): a stored record that fails to parse into the Booking
model is not skipped — because each record is validated inside the
endpoint's single `try` block, one malformed record on the requested page
aborts the whole listing with the 500 InternalFailure response, and the
well-formed bookings are not returned; only a page whose records all parse
is returned successfully. -/
theorem listing_aborts_on_malformed_record
    (actor : User) (sf : Option String) (skip limit : Nat)
    (raw : List RawRecord) :
    ((∃ r ∈ selectedPage actor sf skip limit raw, r.wellFormed = false) →
      get_bookings_checked actor sf skip limit raw =
        Except.error ApiError.internalError) ∧
    ((∀ r ∈ selectedPage actor sf skip limit raw, r.wellFormed = true) →
      get_bookings_checked actor sf skip limit raw =
        Except.ok ((selectedPage actor sf skip limit raw).map RawRecord.fields)) :=
  ⟨fun h => buildBookingList_error _ h, fun h => buildBookingList_ok _ h⟩

/-- A well-formed stored record. -/
def rawGood : RawRecord := ⟨bStable, true⟩

/-- A stored record that raises on `Booking(**booking_data)`. -/
def rawBad : RawRecord := ⟨bOther, false⟩

/-- C7 counterexample: with one well-formed and one malformed stored
record, the listing returns the 500 InternalFailure — it does not skip the
malformed record and return the well-formed booking, as the claim
states. -/
theorem listing_malformed_counterexample :
    get_bookings_checked adminUser none 0 100 [rawGood, rawBad] =
      Except.error ApiError.internalError ∧
    rawGood.wellFormed = true ∧
    get_bookings_checked adminUser none 0 100 [rawGood, rawBad] ≠
      Except.ok [rawGood.fields] := by
  decide

theorem listing_aborts_on_malformed_record_witness :
    get_bookings_checked adminUser none 0 100 [rawGood, rawBad] =
      Except.error ApiError.internalError ∧
    get_bookings_checked adminUser none 0 100 [rawGood] =
      Except.ok [bStable] := by
  constructor
  · exact (listing_aborts_on_malformed_record adminUser none 0 100
      [rawGood, rawBad]).1 ⟨rawBad, by decide, rfl⟩
  · exact ((listing_aborts_on_malformed_record adminUser none 0 100
      [rawGood]).2 (by decide)).trans (by decide)
